import Mathlib

/-!
Shallow embedding of the subscription provisioning & reconciliation engine
(`src/db/models.py`, `src/services/*.py`, `src/bot/handlers/*.py`,
`src/bot/main.py`) and proofs of the specification claims about it.

Effectful Python code is modelled by explicit state passing over a `DB`
value; wall-clock reads (`now_ts()` / `time.time()`) and random id
generation (`uuid4`) are passed in as explicit parameters; raised
exceptions become `Except`-style results paired with the state at the
moment of the raise (committed writes before a raise persist, as in the
source).
-/

/-- JSON-like values, the shape of the dynamically typed
`settings` / `stream_settings` dictionaries parsed from the panel
(`src/services/xui_client.py`, `_parse_inbound`). -/
inductive JsonVal where
  | null
  | bool (b : Bool)
  | num (n : Int)
  | str (s : String)
  | arr (elems : List JsonVal)
  | obj (fields : List (String × JsonVal))

/-- Python truthiness of a JSON value (`None`, `False`, `0`, `""`, `[]`,
`{}` are falsy). -/
def JsonVal.truthy : JsonVal → Bool
  | .null => false
  | .bool b => b
  | .num n => n != 0
  | .str s => s != ""
  | .arr l => !l.isEmpty
  | .obj f => !f.isEmpty

/-- Python `d.get(k)` on a dict-like value: `none` when the key is absent
or the value is not a dict. -/
def JsonVal.getKey : JsonVal → String → Option JsonVal
  | .obj fields, k => (fields.find? (fun kv => kv.1 == k)).map (fun kv => kv.2)
  | _, _ => none

/-- Python `a or b` where `a` is the result of a `.get` (absent = falsy)
and the whole expression falls back to a default value `d`. -/
def pyOrD (a : Option JsonVal) (d : JsonVal) : JsonVal :=
  match a with
  | some v => if v.truthy then v else d
  | none => d

/-- Python `a or b` between two `.get` results, where the final fallback
of the enclosing chain is `None`. -/
def pyOr (a b : Option JsonVal) : Option JsonVal :=
  match a with
  | some v => if v.truthy then some v else b
  | none => b

/-- Python `x if isinstance(x, dict) else {}`. -/
def asObj : Option JsonVal → JsonVal
  | some (.obj f) => .obj f
  | _ => .obj []

mutual

/-- Python `repr` of a parsed-JSON value (scalars exact; container
rendering follows `repr` of Python lists/dicts of the same shape). -/
def JsonVal.pyRepr : JsonVal → String
  | .null => "None"
  | .bool true => "True"
  | .bool false => "False"
  | .num n => toString n
  | .str s => "\x27" ++ s ++ "\x27"
  | .arr l => "[" ++ String.intercalate ", " (pyReprElems l) ++ "]"
  | .obj f => "\x7b" ++ String.intercalate ", " (pyReprFields f) ++ "\x7d"

def pyReprElems : List JsonVal → List String
  | [] => []
  | v :: vs => v.pyRepr :: pyReprElems vs

def pyReprFields : List (String × JsonVal) → List String
  | [] => []
  | (k, v) :: kvs => ("\x27" ++ k ++ "\x27: " ++ v.pyRepr) :: pyReprFields kvs

end

/-- Python `str` of a parsed-JSON value (what `urlencode` applies to a
non-string query value). -/
def JsonVal.pyStr : JsonVal → String
  | .str s => s
  | v => v.pyRepr

/-- One hexadecimal digit, uppercase, as used by `urllib.parse.quote`. -/
def hexDigitU (n : Nat) : String :=
  String.singleton (if n < 10 then Char.ofNat (48 + n) else Char.ofNat (55 + n))

/-- UTF-8 encoding of a Unicode code point, as a list of byte values. -/
def utf8Bytes (n : Nat) : List Nat :=
  if n < 0x80 then [n]
  else if n < 0x800 then [0xC0 + n / 0x40, 0x80 + n % 0x40]
  else if n < 0x10000 then
    [0xE0 + n / 0x1000, 0x80 + (n / 0x40) % 0x40, 0x80 + n % 0x40]
  else
    [0xF0 + n / 0x40000, 0x80 + (n / 0x1000) % 0x40, 0x80 + (n / 0x40) % 0x40,
      0x80 + n % 0x40]

/-- Characters `urllib.parse.quote` leaves unescaped: ASCII
alphanumerics, `_ . - ~`, plus the characters of the `safe` parameter. -/
def quoteSafe (safe : List Char) (c : Char) : Bool :=
  c.isAlphanum || c == '_' || c == '.' || c == '-' || c == '~' || safe.contains c

/-- Percent-escape of a single byte. -/
def quoteByte (b : Nat) : String :=
  "%" ++ hexDigitU (b / 16 % 16) ++ hexDigitU (b % 16)

/-- Python `urllib.parse.quote(s, safe=...)`. -/
def pyQuoteWith (safe : List Char) (s : String) : String :=
  String.join (s.data.map (fun c =>
    if quoteSafe safe c then String.singleton c
    else String.join ((utf8Bytes c.toNat).map quoteByte)))

/-- Python `urllib.parse.quote(s)` with its own default `safe='/'`, as
called directly on the fragment label (xui_client.py:192). -/
def pyQuote (s : String) : String := pyQuoteWith ['/'] s

/-- Python `urllib.parse.urlencode(query, quote_via=quote)` over an
ordered association list (Python dicts preserve insertion order).
`urlencode` passes its own `safe=''` default down to `quote_via`, so a
`/` in a query key or value IS percent-encoded, unlike in the fragment. -/
def urlencodeQuote (q : List (String × String)) : String :=
  String.intercalate "&" (q.map (fun kv => pyQuoteWith [] kv.1 ++ "=" ++ pyQuoteWith [] kv.2))

/-- The `Inbound` dataclass of `src/services/xui_client.py`. -/
structure Inbound where
  id : Int
  remark : String
  port : Int
  protocol : String
  settings : JsonVal
  stream_settings : JsonVal

/-- Error taxonomy: `Conflict` is sqlite's uniqueness violation
(`IntegrityError`), `NotFound` the `KeyError` of `get_payment`,
`Forbidden` the `PermissionError` of `confirm_payment`, `XUIErr` the
`XUIError` of the panel client, and `AttributeErr` the Python
`AttributeError` raised by `reality.get(...)` on a non-dict reality
value (xui_client.py:170). -/
inductive Err where
  | Conflict
  | NotFound
  | Forbidden
  | XUIErr (msg : String)
  | AttributeErr
deriving DecidableEq, Repr

/-- Model of `XUIClient.resolve_inbound` (xui_client.py:85-99) over an
already-fetched endpoint list. `inbound_remark` is `str | None`; the
source guard `if inbound_remark:` is Python truthiness. -/
def resolveInbound (inbounds : List Inbound) (inboundId : Option Int)
    (inboundRemark : Option String) : Except Err Inbound :=
  match inboundId with
  | some i =>
    match inbounds.find? (fun ib => ib.id == i) with
    | some ib => .ok ib
    | none => .error (.XUIErr "inbound id not found")
  | none =>
    match
      (if inboundRemark.getD "" != "" then
        inbounds.find? (fun ib => ib.remark == inboundRemark.getD "")
      else none) with
    | some ib => .ok ib
    | none =>
      match inbounds.find? (fun ib => ib.protocol.toLower == "vless") with
      | some ib => .ok ib
      | none => .error (.XUIErr "no suitable inbound found")

/-- The `reality` dict extracted in `build_vless_reality_uri`
(xui_client.py:159-168): alias keys tried in source order. -/
def realityOf (inbound : Inbound) : JsonVal :=
  let stream := asObj (some inbound.stream_settings)
  let tls := asObj (stream.getKey "tlsSettings")
  pyOrD (stream.getKey "realitySettings")
    (pyOrD (tls.getKey "realitySettings")
      (pyOrD (stream.getKey "reality") (.obj [])))

/-- The `spx` value (xui_client.py:174) read from an extracted `reality`
value: `some` exactly when a truthy `spiderX` / `spider_x` entry is
present. Total only over an actual dict — the fallible entry points
below guard that. -/
def spxOfReality (reality : JsonVal) : Option JsonVal :=
  pyOr (reality.getKey "spiderX") (pyOr (reality.getKey "spider_x") none)

/-- The `query` dict built in `build_vless_reality_uri`
(xui_client.py:170-190) from an extracted `reality` value, in insertion
order, values stringified as `urlencode` would. This is the success
path shared by the fallible entry points below: the source's
`reality.get(...)` calls only run without raising when `reality` is an
actual dict. -/
def queryOfReality (reality : JsonVal) : List (String × String) :=
  let pbk := pyOrD (reality.getKey "publicKey")
    (pyOrD (reality.getKey "public_key") (.str ""))
  let serverNames := pyOrD (reality.getKey "serverNames")
    (pyOrD (reality.getKey "server_names") (.arr []))
  let shortIds := pyOrD (reality.getKey "shortIds")
    (pyOrD (reality.getKey "short_ids") (.arr []))
  let fp := pyOrD (reality.getKey "fingerprint") (.str "chrome")
  let sni := match serverNames with
    | .arr (x :: _) => x
    | _ => .str ""
  let sid := match shortIds with
    | .arr (x :: _) => x
    | _ => .str ""
  let base := [("type", "tcp"), ("security", "reality"),
    ("encryption", "none"), ("flow", "xtls-rprx-vision"),
    ("fp", fp.pyStr), ("sni", sni.pyStr), ("pbk", pbk.pyStr),
    ("sid", sid.pyStr)]
  match spxOfReality reality with
  | some v => if v.truthy then base ++ [("spx", v.pyStr)] else base
  | none => base

/-- Whether the extracted `reality` value is an actual dict. The alias
chain of xui_client.py:163-168 yields either a truthy value of
arbitrary type or the `{}` default; `reality` is NOT isinstance-guarded
the way `stream` and `tls` are, so a non-dict result (necessarily
truthy) makes the first `reality.get("publicKey")` (xui_client.py:170)
raise `AttributeError`. -/
def realityIsDict (inbound : Inbound) : Bool :=
  match realityOf inbound with
  | .obj _ => true
  | _ => false

/-- The `spx` value of an endpoint: raises `AttributeError` (here
`.error`) when the extracted reality value is a truthy non-dict. -/
def spxOf (inbound : Inbound) : Except Err (Option JsonVal) :=
  match realityOf inbound with
  | .obj f => .ok (spxOfReality (.obj f))
  | _ => .error .AttributeErr

/-- The query dict of an endpoint: raises `AttributeError` (here
`.error`) when the extracted reality value is a truthy non-dict. -/
def vlessQuery (inbound : Inbound) : Except Err (List (String × String)) :=
  match realityOf inbound with
  | .obj f => .ok (queryOfReality (.obj f))
  | _ => .error .AttributeErr

/-- Success-path rendering of `XUIClient.build_vless_reality_uri`
(xui_client.py:154-192): the URI produced once the `reality.get`
lookups succeed. The handler embeddings below use this total form
(their fixtures never leave the success path); the faithful fallible
entry point is `buildVlessRealityUriChecked`. -/
def buildVlessRealityUri (inbound : Inbound) (vpnPublicHost clientUuid label : String) :
    String :=
  "vless://" ++ clientUuid ++ "@" ++ vpnPublicHost ++ ":" ++ toString inbound.port
    ++ "?" ++ urlencodeQuote (queryOfReality (realityOf inbound)) ++ "#" ++ pyQuote label

/-- Faithful model of `XUIClient.build_vless_reality_uri`
(xui_client.py:154-192): fails with `AttributeError` on a truthy
non-dict reality value (producing no URI at all), otherwise renders the
URI of the success path. -/
def buildVlessRealityUriChecked (inbound : Inbound)
    (vpnPublicHost clientUuid label : String) : Except Err String :=
  match vlessQuery inbound with
  | .error e => .error e
  | .ok q =>
    .ok ("vless://" ++ clientUuid ++ "@" ++ vpnPublicHost ++ ":"
      ++ toString inbound.port ++ "?" ++ urlencodeQuote q ++ "#" ++ pyQuote label)

/-- The `Payment` dataclass of `src/db/models.py` (payload kept as its raw
JSON text). -/
structure Payment where
  id : String
  tg_id : Int
  provider : String
  amount : Int
  currency : String
  status : String
  idempotency_key : String
  created_at : Int
  updated_at : Int
  payload : String
deriving DecidableEq, Repr

/-- The `Subscription` dataclass of `src/db/models.py`. -/
structure Subscription where
  id : String
  tg_id : Int
  payment_id : String
  inbound_id : Int
  client_uuid : String
  client_email : String
  vless_uri : String
  status : String
  created_at : Int
  starts_at : Int
  expires_at : Int
  revoked_at : Option Int
deriving DecidableEq, Repr

/-- The sqlite state of `Database` (models.py): the three tables, rows in
insertion (rowid) order. -/
structure DB where
  users : List Int
  payments : List Payment
  subscriptions : List Subscription
deriving DecidableEq, Repr

/-- Model of `Database.ensure_user` (models.py:120-125): `INSERT OR IGNORE`. -/
def ensureUser (db : DB) (tg : Int) : DB :=
  if db.users.contains tg then db else { db with users := db.users ++ [tg] }

/-- Model of `Database.get_payment` (models.py:153-169): first row with the id,
`KeyError` (here `NotFound`) when absent. -/
def getPayment (db : DB) (paymentId : String) : Except Err Payment :=
  match db.payments.find? (fun p => p.id == paymentId) with
  | some p => .ok p
  | none => .error .NotFound

/-- Model of `Database.create_payment` (models.py:127-151): inserts a `pending`
row; the sqlite UNIQUE constraints on `id` / `idempotency_key` raise
`IntegrityError` (here `Conflict`). Fresh id and timestamp are explicit
parameters. -/
def createPayment (db : DB) (pid : String) (tg : Int) (provider : String)
    (amount : Int) (currency : String) (idempotencyKey : String)
    (payload : String) (now : Int) : DB × Except Err Payment :=
  if db.payments.any (fun p => p.id == pid || p.idempotency_key == idempotencyKey) then
    (db, .error .Conflict)
  else
    let p : Payment :=
      { id := pid, tg_id := tg, provider := provider, amount := amount,
        currency := currency, status := "pending",
        idempotency_key := idempotencyKey, created_at := now,
        updated_at := now, payload := payload }
    ({ db with payments := db.payments ++ [p] }, .ok p)

/-- Model of `Database.set_payment_status` (models.py:176-183): update in place,
then re-read. -/
def setPaymentStatus (db : DB) (paymentId status : String) (now : Int) :
    DB × Except Err Payment :=
  let db' := { db with payments := db.payments.map (fun p =>
    if p.id == paymentId then { p with status := status, updated_at := now } else p) }
  (db', getPayment db' paymentId)

/-- Row with the greatest `created_at` (the `ORDER BY created_at DESC
LIMIT 1` of models.py; on equal keys the earliest-scanned row is kept). -/
def latestCreatedPayment : List Payment → Option Payment
  | [] => none
  | p :: rest =>
    match latestCreatedPayment rest with
    | none => some p
    | some q => if q.created_at > p.created_at then some q else some p

/-- Model of `Database.get_latest_pending_payment` (models.py:185-198). -/
def getLatestPendingPayment (db : DB) (tg : Int) (provider : String)
    (amount : Int) (currency : String) : Option Payment :=
  latestCreatedPayment (db.payments.filter (fun p =>
    p.tg_id == tg && p.provider == provider && p.amount == amount &&
    p.currency == currency && p.status == "pending"))

/-- The cutoff normalisation `at_ts = at_ts or now_ts()` shared by
`get_active_subscription` and `list_expired_active_subscriptions`
(models.py:201, 273): `None` and `0` are both falsy in Python. -/
def effectiveCutoff (atTs : Option Int) (now : Int) : Int :=
  match atTs with
  | some v => if v == 0 then now else v
  | none => now

/-- Row with the greatest `created_at` among subscriptions. -/
def latestCreatedSubscription : List Subscription → Option Subscription
  | [] => none
  | s :: rest =>
    match latestCreatedSubscription rest with
    | none => some s
    | some t => if t.created_at > s.created_at then some t else some s

/-- Model of `Database.get_active_subscription` (models.py:200-212). -/
def getActiveSubscription (db : DB) (tg : Int) (atTs : Option Int) (now : Int) :
    Option Subscription :=
  let t := effectiveCutoff atTs now
  latestCreatedSubscription (db.subscriptions.filter (fun s =>
    s.tg_id == tg && s.status == "active" && t < s.expires_at))

/-- Model of `Database.get_subscription_by_payment` (models.py:227-230). -/
def getSubscriptionByPayment (db : DB) (paymentId : String) : Option Subscription :=
  db.subscriptions.find? (fun s => s.payment_id == paymentId)

/-- Model of `Database.create_subscription` (models.py:232-270): inserts an
`active` row with `revoked_at = NULL`; the UNIQUE constraints on `id` and
`payment_id` raise `IntegrityError` (here `Conflict`). -/
def createSubscription (db : DB) (sId : String) (tg : Int) (paymentId : String)
    (inboundId : Int) (clientUuid clientEmail vlessUri : String)
    (startsAt expiresAt : Int) (now : Int) : DB × Except Err Subscription :=
  if db.subscriptions.any (fun s => s.id == sId || s.payment_id == paymentId) then
    (db, .error .Conflict)
  else
    let s : Subscription :=
      { id := sId, tg_id := tg, payment_id := paymentId,
        inbound_id := inboundId, client_uuid := clientUuid,
        client_email := clientEmail, vless_uri := vlessUri,
        status := "active", created_at := now, starts_at := startsAt,
        expires_at := expiresAt, revoked_at := none }
    ({ db with subscriptions := db.subscriptions ++ [s] }, .ok s)

/-- Insertion step of a stable ascending sort on `expires_at`. -/
def insertByExpiry (s : Subscription) : List Subscription → List Subscription
  | [] => [s]
  | t :: ts =>
    if s.expires_at < t.expires_at then s :: t :: ts else t :: insertByExpiry s ts

/-- Stable ascending sort on `expires_at` (the `ORDER BY expires_at ASC`
of models.py:278). -/
def sortByExpiry : List Subscription → List Subscription
  | [] => []
  | s :: rest => insertByExpiry s (sortByExpiry rest)

/-- Model of `Database.list_expired_active_subscriptions` (models.py:272-283). -/
def listExpiredActiveSubscriptions (db : DB) (atTs : Option Int) (now : Int) :
    List Subscription :=
  let t := effectiveCutoff atTs now
  sortByExpiry (db.subscriptions.filter (fun s =>
    s.status == "active" && s.expires_at ≤ t))

/-- Model of `Database.mark_subscription_expired` (models.py:285-291): an
unconditional UPDATE of `status` and `revoked_at` on every row with the
id. -/
def markSubscriptionExpired (db : DB) (subId : String) (now : Int) : DB :=
  { db with subscriptions := db.subscriptions.map (fun s =>
    if s.id == subId then { s with status := "expired", revoked_at := some now } else s) }

/-- The configuration and external-panel behaviour a handler invocation
sees: the fetched endpoint list (`list_inbounds`), the configured
endpoint selector, the public host, the validity window, and whether the
panel `add_client` call fails (raises `XUIError`). -/
structure Env where
  inbounds : List Inbound
  cfgInboundId : Option Int
  cfgInboundRemark : Option String
  vpnPublicHost : String
  subscriptionDays : Int
  addClientFails : Bool

/-- Model of `MockPaymentService.confirm_payment` (payments.py:51-59). -/
def confirmPayment (db : DB) (paymentId : String) (tg : Int) (now : Int) :
    DB × Except Err Payment :=
  match getPayment db paymentId with
  | .error e => (db, .error e)
  | .ok p =>
    if p.tg_id != tg then (db, .error .Forbidden)
    else if p.status == "succeeded" then (db, .ok p)
    else if p.status != "pending" then (db, .ok p)
    else setPaymentStatus db paymentId "succeeded" now

/-- Model of `MockPaymentService.create_payment` (payments.py:33-49); the fresh
payment id and idempotency key are explicit parameters. Returns the
`already_existed` flag of `CreatePaymentResult`. -/
def mockCreatePayment (db : DB) (tg : Int) (amount : Int) (currency : String)
    (pid idempotencyKey : String) (now : Int) :
    DB × Except Err (Payment × Bool) :=
  match getLatestPendingPayment db tg "payment_mock" amount currency with
  | some existing => (db, .ok (existing, true))
  | none =>
    match createPayment db pid tg "payment_mock" amount currency idempotencyKey "{}" now with
    | (db', .ok p) => (db', .ok (p, false))
    | (db', .error e) => (db', .error e)

/-- Modelled from the spec: `Database.create_or_get_admin_grant_payment`
is called from `src/services/admin_access.py:25` and
`src/bot/handlers/start.py:38` but is not defined anywhere under the
sources. Spec §4.4: the grant flow "obtains or creates a zero-amount
\"grant\" payment record keyed by identity (idempotent per identity)". -/
def createOrGetAdminGrantPayment (db : DB) (tg : Int) (pid : String) (now : Int) :
    DB × Payment :=
  match db.payments.find? (fun p => p.provider == "admin_grant" && p.tg_id == tg) with
  | some p => (db, p)
  | none =>
    let p : Payment :=
      { id := pid, tg_id := tg, provider := "admin_grant", amount := 0,
        currency := "RUB", status := "succeeded",
        idempotency_key := "admin_grant:" ++ toString tg, created_at := now,
        updated_at := now, payload := "{}" }
    ({ db with payments := db.payments ++ [p] }, p)

/-- The constant `ADMIN_EXPIRES_AT` (admin_access.py:10, also inlined at
start.py:43): 2100-01-01 UTC. -/
def ADMIN_EXPIRES_AT : Int := 4102444800

/-- Model of `ensure_admin_subscription` (admin_access.py:13-53); the same
check-then-provision sequence is inlined in the `/start` handler
(start.py:35-65). Fresh grant-payment id, client uuid and subscription id
are explicit parameters. -/
def ensureAdminSubscription (env : Env) (adminIds : List Int) (db : DB) (tg : Int)
    (grantPid clientUuid sId : String) (now : Int) : DB × Except Err Unit :=
  if !adminIds.contains tg then (db, .ok ())
  else
    match getActiveSubscription db tg none now with
    | some _ => (db, .ok ())
    | none =>
      let (db, payment) := createOrGetAdminGrantPayment db tg grantPid now
      match resolveInbound env.inbounds env.cfgInboundId env.cfgInboundRemark with
      | .error e => (db, .error e)
      | .ok inbound =>
        let clientEmail := "admin" ++ toString tg ++ "-" ++ clientUuid.take 8
        let starts := now
        if env.addClientFails then (db, .error (.XUIErr "add_client failed"))
        else
          let vlessUri := buildVlessRealityUri inbound env.vpnPublicHost clientUuid clientEmail
          match createSubscription db sId tg payment.id inbound.id clientUuid
              clientEmail vlessUri starts ADMIN_EXPIRES_AT now with
          | (db, .error e) => (db, .error e)
          | (db, .ok _) => (db, .ok ())

/-- The `/start` handler (start.py:28-77): `ensure_user`, then for
allow-listed identities the privileged-grant sequence. -/
def startHandler (env : Env) (adminIds : List Int) (db : DB) (tg : Int)
    (grantPid clientUuid sId : String) (now : Int) : DB × Except Err Unit :=
  ensureAdminSubscription env adminIds (ensureUser db tg) tg grantPid clientUuid sId now

/-- Outcome of the `buy` handler, as shown to the user. -/
inductive BuyOutcome where
  | alreadyActive (sub : Subscription)
  | invoice (payment : Payment)
deriving DecidableEq, Repr

/-- The `buy` handler (menu.py:42-72): refuse when an active subscription
exists, otherwise create (or resume) a pending mock payment. -/
def buyHandler (db : DB) (tg : Int) (price : Int) (pid idempotencyKey : String)
    (now : Int) : DB × Except Err BuyOutcome :=
  let db := ensureUser db tg
  match getActiveSubscription db tg none now with
  | some s => (db, .ok (.alreadyActive s))
  | none =>
    match mockCreatePayment db tg price "RUB" pid idempotencyKey now with
    | (db', .ok (p, _)) => (db', .ok (.invoice p))
    | (db', .error e) => (db', .error e)

/-- Outcome of the `pay_confirm` handler, as shown to the user. -/
inductive PayOutcome where
  | notSucceeded (status : String)
  | alreadyProcessed (sub : Subscription)
  | provisioned (sub : Subscription)
deriving DecidableEq, Repr

/-- The provisioning tail of `pay_confirm` (menu.py:170-197): the code
that runs after the `get_subscription_by_payment` existence check came
back empty. Its `db` argument is the state at the time of the
subscription INSERT, which under concurrency may differ from the state
the existence check saw. -/
def payConfirmProvision (env : Env) (db : DB) (tg : Int) (payment : Payment)
    (clientUuid sId : String) (now : Int) : DB × Except Err PayOutcome :=
  match resolveInbound env.inbounds env.cfgInboundId env.cfgInboundRemark with
  | .error e => (db, .error e)
  | .ok inbound =>
    let clientEmail := "tg" ++ toString tg ++ "-" ++ clientUuid.take 8
    let starts := now
    let expires := starts + env.subscriptionDays * 86400
    if env.addClientFails then (db, .error (.XUIErr "add_client failed"))
    else
      let vlessUri := buildVlessRealityUri inbound env.vpnPublicHost clientUuid clientEmail
      match createSubscription db sId tg payment.id inbound.id clientUuid
          clientEmail vlessUri starts expires now with
      | (db', .error e) => (db', .error e)
      | (db', .ok sub) => (db', .ok (.provisioned sub))

/-- The `pay_confirm` handler (menu.py:136-209): confirm the payment,
replay-return an existing subscription for it, otherwise provision. -/
def payConfirm (env : Env) (db : DB) (tg : Int) (paymentId : String)
    (clientUuid sId : String) (now : Int) : DB × Except Err PayOutcome :=
  let db := ensureUser db tg
  match confirmPayment db paymentId tg now with
  | (db1, .error e) => (db1, .error e)
  | (db1, .ok payment) =>
    if payment.status != "succeeded" then (db1, .ok (.notSucceeded payment.status))
    else
      match getSubscriptionByPayment db1 payment.id with
      | some s => (db1, .ok (.alreadyProcessed s))
      | none => payConfirmProvision env db1 tg payment clientUuid sId now

/-- One iteration of `subscription_watcher` (main.py:21-33): list the
expired-but-active subscriptions, and for each one attempt the external
`delete_client` (its failure is caught and logged) and then mark the row
expired unconditionally. `deleteFails` is the external call's outcome per
subscription id. -/
def sweepOnce (db : DB) (deleteFails : String → Bool) (now : Int) : DB :=
  (listExpiredActiveSubscriptions db (some now) now).foldl
    (fun acc s =>
      let _ := deleteFails s.id
      markSubscriptionExpired acc s.id now) db

/-! ### Supporting lemmas -/

theorem ensureUser_payments (db : DB) (tg : Int) :
    (ensureUser db tg).payments = db.payments := by
  unfold ensureUser; split <;> rfl

theorem ensureUser_subscriptions (db : DB) (tg : Int) :
    (ensureUser db tg).subscriptions = db.subscriptions := by
  unfold ensureUser; split <;> rfl

theorem getPayment_congr {db1 db2 : DB} (h : db1.payments = db2.payments)
    (pid : String) : getPayment db1 pid = getPayment db2 pid := by
  unfold getPayment; rw [h]

theorem getSubscriptionByPayment_congr {db1 db2 : DB}
    (h : db1.subscriptions = db2.subscriptions) (pid : String) :
    getSubscriptionByPayment db1 pid = getSubscriptionByPayment db2 pid := by
  unfold getSubscriptionByPayment; rw [h]

theorem getActiveSubscription_congr {db1 db2 : DB}
    (h : db1.subscriptions = db2.subscriptions) (tg : Int) (atTs : Option Int)
    (now : Int) :
    getActiveSubscription db1 tg atTs now = getActiveSubscription db2 tg atTs now := by
  unfold getActiveSubscription; rw [h]

theorem latestCreatedSubscription_eq_none_iff (l : List Subscription) :
    latestCreatedSubscription l = none ↔ l = [] := by
  induction l with
  | nil => simp [latestCreatedSubscription]
  | cons s rest ih =>
    simp only [latestCreatedSubscription]
    constructor
    · intro h
      cases hr : latestCreatedSubscription rest with
      | none => simp [hr] at h
      | some t =>
        rw [hr] at h
        by_cases hc : t.created_at > s.created_at
        · simp [hc] at h
        · simp [hc] at h
    · intro h; simp at h

theorem mem_insertByExpiry (x s : Subscription) (l : List Subscription) :
    x ∈ insertByExpiry s l ↔ x = s ∨ x ∈ l := by
  induction l with
  | nil => simp [insertByExpiry]
  | cons t ts ih =>
    simp only [insertByExpiry]
    split
    · simp [List.mem_cons]
    · simp only [List.mem_cons, ih]
      tauto

theorem mem_sortByExpiry (x : Subscription) (l : List Subscription) :
    x ∈ sortByExpiry l ↔ x ∈ l := by
  induction l with
  | nil => simp [sortByExpiry]
  | cons s rest ih =>
    simp only [sortByExpiry, mem_insertByExpiry, ih, List.mem_cons]

theorem pairwise_insertByExpiry (s : Subscription) (l : List Subscription)
    (h : l.Pairwise (fun a b => a.expires_at ≤ b.expires_at)) :
    (insertByExpiry s l).Pairwise (fun a b => a.expires_at ≤ b.expires_at) := by
  induction l with
  | nil => simp [insertByExpiry]
  | cons t ts ih =>
    rw [List.pairwise_cons] at h
    obtain ⟨hhead, htail⟩ := h
    simp only [insertByExpiry]
    split
    · rename_i hlt
      refine List.Pairwise.cons ?_ (List.Pairwise.cons hhead htail)
      intro x hx
      rcases List.mem_cons.1 hx with rfl | hx
      · exact le_of_lt hlt
      · exact le_trans (le_of_lt hlt) (hhead x hx)
    · rename_i hnlt
      refine List.Pairwise.cons ?_ (ih htail)
      intro x hx
      rcases (mem_insertByExpiry x s ts).1 hx with rfl | hx
      · exact le_of_not_lt hnlt
      · exact hhead x hx

theorem pairwise_sortByExpiry (l : List Subscription) :
    (sortByExpiry l).Pairwise (fun a b => a.expires_at ≤ b.expires_at) := by
  induction l with
  | nil => simp [sortByExpiry]
  | cons s rest ih => exact pairwise_insertByExpiry s (sortByExpiry rest) ih

theorem find?_eq_head?_filter {α : Type} (p : α → Bool) (l : List α) :
    l.find? p = (l.filter p).head? := by
  induction l with
  | nil => rfl
  | cons a as ih =>
    by_cases h : p a = true
    · rw [List.find?_cons_of_pos _ h, List.filter_cons_of_pos h]; rfl
    · rw [List.find?_cons_of_neg _ (by simpa using h),
        List.filter_cons_of_neg (by simpa using h), ih]

/-! ### C10 -/

/-- C10: for both `get_active_subscription` and
`list_expired_active_subscriptions`, a cutoff of `0` (or an omitted
cutoff) is replaced by the current wall-clock time, so querying with
`at_ts = 0` behaves exactly like querying at `now` — not like a literal
epoch-0 cutoff. -/
theorem cutoff_zero_means_now :
    ∀ (db : DB) (tg now : Int),
      getActiveSubscription db tg (some 0) now = getActiveSubscription db tg none now ∧
      getActiveSubscription db tg (some now) now = getActiveSubscription db tg none now ∧
      listExpiredActiveSubscriptions db (some 0) now =
        listExpiredActiveSubscriptions db none now ∧
      listExpiredActiveSubscriptions db (some now) now =
        listExpiredActiveSubscriptions db none now := by
  intro db tg now
  have h0 : effectiveCutoff (some 0) now = effectiveCutoff none now := by
    simp [effectiveCutoff]
  have hn : effectiveCutoff (some now) now = effectiveCutoff none now := by
    simp only [effectiveCutoff]
    split <;> rfl
  refine ⟨?_, ?_, ?_, ?_⟩ <;>
    simp only [getActiveSubscription, listExpiredActiveSubscriptions, h0, hn]

/-! ### C6 -/

/-- C6: `list_expired_active(now)` returns exactly the `active`
subscriptions whose expiry has elapsed, ascending by `expires_at`; in
particular `expires_at = now - 1` is included and `expires_at = now + 1`
is excluded, for every positive `now`. -/
theorem listExpiredActive_correct :
    ∀ (db : DB) (now : Int), 0 < now →
      (∀ s, s ∈ listExpiredActiveSubscriptions db (some now) now ↔
        (s ∈ db.subscriptions ∧ s.status = "active" ∧ s.expires_at ≤ now)) ∧
      (∀ s ∈ db.subscriptions, s.status = "active" → s.expires_at = now - 1 →
        s ∈ listExpiredActiveSubscriptions db (some now) now) ∧
      (∀ s, s.expires_at = now + 1 →
        s ∉ listExpiredActiveSubscriptions db (some now) now) ∧
      (listExpiredActiveSubscriptions db (some now) now).Pairwise
        (fun a b => a.expires_at ≤ b.expires_at) := by
  intro db now hnow
  have hcut : effectiveCutoff (some now) now = now := by
    simp only [effectiveCutoff]
    split <;> rfl
  have hmem : ∀ s, s ∈ listExpiredActiveSubscriptions db (some now) now ↔
      (s ∈ db.subscriptions ∧ s.status = "active" ∧ s.expires_at ≤ now) := by
    intro s
    simp only [listExpiredActiveSubscriptions, hcut, mem_sortByExpiry,
      List.mem_filter, Bool.and_eq_true, beq_iff_eq, decide_eq_true_eq,
      and_assoc]
  refine ⟨hmem, ?_, ?_, ?_⟩
  · intro s hs hact hexp
    exact (hmem s).2 ⟨hs, hact, by omega⟩
  · intro s hexp hin
    have := ((hmem s).1 hin).2.2
    omega
  · simpa only [listExpiredActiveSubscriptions, hcut] using
      pairwise_sortByExpiry (db.subscriptions.filter
        (fun s => s.status == "active" && decide (s.expires_at ≤ now)))

/-- Fixture: an active subscription expired one second before the query
cutoff `10`. -/
def subBelowCutoff : Subscription :=
  { id := "a", tg_id := 1, payment_id := "pa", inbound_id := 1,
    client_uuid := "u", client_email := "e", vless_uri := "v",
    status := "active", created_at := 1, starts_at := 1, expires_at := 9,
    revoked_at := none }

/-- Fixture: an active subscription still valid at the query cutoff `10`. -/
def subAboveCutoff : Subscription :=
  { id := "b", tg_id := 1, payment_id := "pb", inbound_id := 1,
    client_uuid := "u", client_email := "e", vless_uri := "v",
    status := "active", created_at := 2, starts_at := 2, expires_at := 11,
    revoked_at := none }

/-- Fixture database for the expiry-listing claims. -/
def dbCutoff : DB := ⟨[1], [], [subBelowCutoff, subAboveCutoff]⟩

/-- Witness for `listExpiredActive_correct` at `now = 10`. -/
theorem listExpiredActive_correct_witness :
    subBelowCutoff ∈ listExpiredActiveSubscriptions dbCutoff (some 10) 10 ∧
    subAboveCutoff ∉ listExpiredActiveSubscriptions dbCutoff (some 10) 10 := by
  have h := listExpiredActive_correct dbCutoff 10 (by decide)
  exact ⟨h.2.1 subBelowCutoff (by decide) rfl (by decide),
    h.2.2.1 subAboveCutoff (by decide)⟩

/-! ### C5 -/

/-- Fixture: a subscription already marked `expired`, `revoked_at`
stamped at time 5. -/
def subAlreadyExpired : Subscription :=
  { id := "s1", tg_id := 1, payment_id := "p1", inbound_id := 1,
    client_uuid := "u", client_email := "e", vless_uri := "v",
    status := "expired", created_at := 1, starts_at := 1, expires_at := 2,
    revoked_at := some 5 }

/-- Fixture database holding only `subAlreadyExpired`. -/
def dbAlreadyExpired : DB := ⟨[1], [], [subAlreadyExpired]⟩

/-- C5 counterexample: calling `mark_subscription_expired` on a
subscription whose status is already `expired` is not a no-op — at time
10 it overwrites the previously stamped `revoked_at = some 5` with
`some 10`, changing the record. -/
theorem markExpired_restamps_counterexample :
    markSubscriptionExpired dbAlreadyExpired "s1" 10 ≠ dbAlreadyExpired ∧
    (markSubscriptionExpired dbAlreadyExpired "s1" 10).subscriptions.map
      Subscription.revoked_at = [some 10] := by
  constructor
  · intro h
    have := congrArg (fun d => d.subscriptions.map Subscription.revoked_at) h
    simp [markSubscriptionExpired, dbAlreadyExpired, subAlreadyExpired] at this
  · rfl

/-- C5 amended: `mark_subscription_expired` always forces
`status = "expired"` and restamps `revoked_at` with the current time; it
is idempotent on `status` (a second call is absorbed by the later one)
and leaves rows with other ids untouched, but the original `revoked_at`
of an already-expired row is overwritten, not kept. -/
theorem markExpired_absorbs :
    ∀ (db : DB) (sid : String) (n1 n2 : Int),
      markSubscriptionExpired (markSubscriptionExpired db sid n1) sid n2 =
        markSubscriptionExpired db sid n2 ∧
      (∀ r ∈ db.subscriptions, r.id ≠ sid →
        r ∈ (markSubscriptionExpired db sid n1).subscriptions) ∧
      (∀ r ∈ (markSubscriptionExpired db sid n1).subscriptions, r.id = sid →
        r.status = "expired" ∧ r.revoked_at = some n1) := by
  intro db sid n1 n2
  refine ⟨?_, ?_, ?_⟩
  · simp only [markSubscriptionExpired, List.map_map]
    congr 1
    apply List.map_congr_left
    intro r _
    by_cases h : r.id = sid <;> simp [Function.comp, h]
  · intro r hr hne
    have : (if r.id == sid then
        { r with status := "expired", revoked_at := some n1 } else r) = r := by
      simp [hne]
    exact this ▸ List.mem_map_of_mem _ hr
  · intro r hr hid
    simp only [markSubscriptionExpired, List.mem_map] at hr
    obtain ⟨r0, _, hmap⟩ := hr
    by_cases h : r0.id = sid
    · rw [← hmap]; simp [h]
    · rw [← hmap] at hid ⊢
      simp [h] at hid

/-- Witness for `markExpired_absorbs` on the already-expired fixture. -/
theorem markExpired_absorbs_witness :
    markSubscriptionExpired (markSubscriptionExpired dbAlreadyExpired "s1" 3) "s1" 7 =
      markSubscriptionExpired dbAlreadyExpired "s1" 7 ∧
    ({ subAlreadyExpired with status := "expired", revoked_at := some 3 } :
        Subscription).status = "expired" ∧
    ({ subAlreadyExpired with status := "expired", revoked_at := some 3 } :
        Subscription).revoked_at = some 3 := by
  have h := markExpired_absorbs dbAlreadyExpired "s1" 3 7
  have h3 := h.2.2 { subAlreadyExpired with status := "expired", revoked_at := some 3 }
    (by decide) (by decide)
  exact ⟨h.1, h3.1, h3.2⟩

/-! ### C4 -/

/-- After `mark_subscription_expired i`, every row with id `i` is
`expired` with a stamped `revoked_at`. -/
theorem markExpired_establishes (db : DB) (i : String) (now : Int) :
    ∀ r ∈ (markSubscriptionExpired db i now).subscriptions, r.id = i →
      r.status = "expired" ∧ r.revoked_at ≠ none := by
  intro r hr hid
  simp only [markSubscriptionExpired, List.mem_map] at hr
  obtain ⟨r0, _, hmap⟩ := hr
  by_cases h : r0.id = i
  · rw [← hmap]; simp [h]
  · rw [← hmap] at hid
    simp [h] at hid

/-- Marking some other row keeps every id-`i` row `expired`-and-stamped. -/
theorem markExpired_preserves (db : DB) (i j : String) (now : Int)
    (h : ∀ r ∈ db.subscriptions, r.id = i →
      r.status = "expired" ∧ r.revoked_at ≠ none) :
    ∀ r ∈ (markSubscriptionExpired db j now).subscriptions, r.id = i →
      r.status = "expired" ∧ r.revoked_at ≠ none := by
  intro r hr hid
  simp only [markSubscriptionExpired, List.mem_map] at hr
  obtain ⟨r0, hr0, hmap⟩ := hr
  by_cases hj : r0.id = j
  · rw [← hmap]; simp [hj]
  · rw [← hmap] at hid ⊢
    simp [hj] at hid ⊢
    exact h r0 hr0 hid

/-- The watcher's per-row fold preserves the `expired`-and-stamped
property of id `i`. -/
theorem sweepFold_preserves (l : List Subscription) (db : DB) (i : String)
    (now : Int)
    (h : ∀ r ∈ db.subscriptions, r.id = i →
      r.status = "expired" ∧ r.revoked_at ≠ none) :
    ∀ r ∈ (l.foldl (fun acc s => markSubscriptionExpired acc s.id now) db).subscriptions,
      r.id = i → r.status = "expired" ∧ r.revoked_at ≠ none := by
  induction l generalizing db with
  | nil => exact h
  | cons s rest ih =>
    exact ih (markSubscriptionExpired db s.id now) (markExpired_preserves db i s.id now h)

/-- If id `i` occurs in the processed batch, the fold leaves every id-`i`
row `expired`-and-stamped. -/
theorem sweepFold_establishes (l : List Subscription) (db : DB) (i : String)
    (now : Int) :
    (∃ s ∈ l, s.id = i) →
    ∀ r ∈ (l.foldl (fun acc s => markSubscriptionExpired acc s.id now) db).subscriptions,
      r.id = i → r.status = "expired" ∧ r.revoked_at ≠ none := by
  induction l generalizing db with
  | nil => intro hmem; exact absurd hmem (by simp)
  | cons s rest ih =>
    intro hmem
    obtain ⟨t, ht, hti⟩ := hmem
    rcases List.mem_cons.1 ht with rfl | ht
    · subst hti
      exact sweepFold_preserves rest (markSubscriptionExpired db t.id now) t.id now
        (markExpired_establishes db t.id now)
    · exact ih (markSubscriptionExpired db s.id now) ⟨t, ht, hti⟩

/-- Marking never changes the set (or order) of row
ids. -/
theorem markExpired_ids (db : DB) (i : String) (now : Int) :
    (markSubscriptionExpired db i now).subscriptions.map Subscription.id =
      db.subscriptions.map Subscription.id := by
  simp only [markSubscriptionExpired, List.map_map]
  apply List.map_congr_left
  intro r _
  by_cases h : r.id = i <;> simp [Function.comp, h]

/-- The fold of the sweep never changes the set (or order) of row ids. -/
theorem sweepFold_ids (l : List Subscription) (db : DB) (now : Int) :
    (l.foldl (fun acc s => markSubscriptionExpired acc s.id now) db).subscriptions.map
        Subscription.id =
      db.subscriptions.map Subscription.id := by
  induction l generalizing db with
  | nil => rfl
  | cons s rest ih =>
    exact (ih (markSubscriptionExpired db s.id now)).trans (markExpired_ids db s.id now)

/-- C4: after one watcher sweep, every subscription that was listed as
expired-but-active at the start of the sweep is `expired` with a
non-null `revoked_at`; the outcome of the external `remove_client` call
(`deleteFails`) is irrelevant, and no subscription row disappears. -/
theorem sweep_converges :
    ∀ (db : DB) (f g : String → Bool) (now : Int) (i : String),
      (∃ s ∈ listExpiredActiveSubscriptions db (some now) now, s.id = i) →
      (∀ r ∈ (sweepOnce db f now).subscriptions, r.id = i →
        r.status = "expired" ∧ r.revoked_at ≠ none) ∧
      sweepOnce db f now = sweepOnce db g now ∧
      (sweepOnce db f now).subscriptions.map Subscription.id =
        db.subscriptions.map Subscription.id := by
  intro db f g now i hmem
  refine ⟨?_, rfl, ?_⟩
  · exact sweepFold_establishes (listExpiredActiveSubscriptions db (some now) now)
      db i now hmem
  · exact sweepFold_ids (listExpiredActiveSubscriptions db (some now) now) db now

/-- Witness for `sweep_converges` on the cutoff fixture: the lapsed
subscription `"a"` is marked even with a failing external revoke. -/
theorem sweep_converges_witness :
    ({ subBelowCutoff with status := "expired", revoked_at := some 10 } :
        Subscription).status = "expired" ∧
    ({ subBelowCutoff with status := "expired", revoked_at := some 10 } :
        Subscription).revoked_at ≠ none := by
  exact (sweep_converges dbCutoff (fun _ => true) (fun _ => false) 10 "a"
    ⟨subBelowCutoff, by decide, rfl⟩).1
    { subBelowCutoff with status := "expired", revoked_at := some 10 }
    (by decide) rfl

/-! ### C7 -/

/-- C7: confirming a payment owned by a different identity fails
`Forbidden` (the `PermissionError` of `confirm_payment`) and changes
nothing: the payments table and the subscriptions table are exactly as
before (only the idempotent user upsert ran). -/
theorem payConfirm_forbidden :
    ∀ (env : Env) (db : DB) (tg : Int) (pid uuid sid : String) (now : Int)
      (p : Payment),
      getPayment db pid = .ok p → p.tg_id ≠ tg →
      payConfirm env db tg pid uuid sid now = (ensureUser db tg, .error .Forbidden) ∧
      (ensureUser db tg).payments = db.payments ∧
      (ensureUser db tg).subscriptions = db.subscriptions := by
  intro env db tg pid uuid sid now p hp hne
  have hpay := ensureUser_payments db tg
  have hsub := ensureUser_subscriptions db tg
  have hgp : getPayment (ensureUser db tg) pid = .ok p := by
    rw [getPayment_congr hpay, hp]
  have hbne : (p.tg_id != tg) = true := by
    simpa using hne
  refine ⟨?_, hpay, hsub⟩
  simp only [payConfirm, confirmPayment, hgp, hbne, if_true]

/-- Fixture payment owned by identity 1. -/
def paymentOfUserOne : Payment :=
  { id := "p1", tg_id := 1, provider := "payment_mock", amount := 199,
    currency := "RUB", status := "pending", idempotency_key := "k1",
    created_at := 1, updated_at := 1, payload := "{}" }

/-- Fixture database holding only `paymentOfUserOne`. -/
def dbOwnership : DB := ⟨[1], [paymentOfUserOne], []⟩

/-- Trivial panel environment for fixtures that never reach the panel. -/
def envNoPanel : Env :=
  { inbounds := [], cfgInboundId := none, cfgInboundRemark := none,
    vpnPublicHost := "h", subscriptionDays := 30, addClientFails := false }

/-- Witness for `payConfirm_forbidden`: identity 2 confirming identity
1's payment. -/
theorem payConfirm_forbidden_witness :
    payConfirm envNoPanel dbOwnership 2 "p1" "u" "s" 50 =
      (ensureUser dbOwnership 2, .error .Forbidden) ∧
    (ensureUser dbOwnership 2).payments = dbOwnership.payments ∧
    (ensureUser dbOwnership 2).subscriptions = dbOwnership.subscriptions := by
  exact payConfirm_forbidden envNoPanel dbOwnership 2 "p1" "u" "s" 50
    paymentOfUserOne rfl (by decide)

/-! ### C8 -/

/-- The resolution order exactly as the claim words it: (1) exact id
match when an id is requested, `NotFound` (the "inbound id not found"
`XUIError`) when absent, with no fallback; (2) the first endpoint with
the requested label when one exists; (3) the first endpoint whose
protocol matches the expected access protocol ("vless"); (4) `NotFound`
(the "no suitable inbound found" `XUIError`) otherwise. -/
def resolveEndpointClaim (inbounds : List Inbound) (preferredId : Option Int)
    (preferredLabel : Option String) : Except Err Inbound :=
  match preferredId with
  | some i =>
    match (inbounds.filter (fun ib => ib.id == i)).head? with
    | some ib => .ok ib
    | none => .error (.XUIErr "inbound id not found")
  | none =>
    if preferredLabel.getD "" != "" &&
        inbounds.any (fun ib => ib.remark == preferredLabel.getD "") then
      match (inbounds.filter (fun ib => ib.remark == preferredLabel.getD "")).head? with
      | some ib => .ok ib
      | none => .error (.XUIErr "no suitable inbound found")
    else
      match (inbounds.filter (fun ib => ib.protocol.toLower == "vless")).head? with
      | some ib => .ok ib
      | none => .error (.XUIErr "no suitable inbound found")

/-- A `find?` hit implies `any`. -/
theorem any_of_find?_eq_some {α : Type} (p : α → Bool) (l : List α) (a : α)
    (h : l.find? p = some a) : l.any p = true := by
  induction l with
  | nil => simp at h
  | cons x xs ih =>
    by_cases hx : p x = true
    · simp [List.any_cons, hx]
    · rw [List.find?_cons_of_neg _ (by simpa using hx)] at h
      simp [List.any_cons, hx, ih h]

/-- C8: `resolve_inbound` implements exactly the claimed resolution
order, for every endpoint list and every requested id / label. -/
theorem resolveInbound_follows_order :
    ∀ (inbounds : List Inbound) (preferredId : Option Int)
      (preferredLabel : Option String),
      resolveInbound inbounds preferredId preferredLabel =
        resolveEndpointClaim inbounds preferredId preferredLabel := by
  intro inbounds pid plabel
  cases pid with
  | some i =>
    simp only [resolveInbound, resolveEndpointClaim, find?_eq_head?_filter]
  | none =>
    simp only [resolveInbound, resolveEndpointClaim]
    by_cases hreq : (plabel.getD "" != "") = true
    · rw [if_pos hreq]
      cases hfind : inbounds.find? (fun ib => ib.remark == plabel.getD "") with
      | some ib =>
        have hany := any_of_find?_eq_some _ inbounds ib hfind
        have hcond : (plabel.getD "" != "" &&
            inbounds.any (fun ib => ib.remark == plabel.getD "")) = true := by
          rw [hreq, hany]; rfl
        rw [if_pos hcond, ← find?_eq_head?_filter, hfind]
      | none =>
        have hany : inbounds.any (fun ib => ib.remark == plabel.getD "") = false := by
          rw [← Bool.not_eq_true]
          intro h
          rcases List.any_eq_true.mp h with ⟨x, hx, hpx⟩
          exact absurd hpx (by simpa using List.find?_eq_none.mp hfind x hx)
        have hcond : (plabel.getD "" != "" &&
            inbounds.any (fun ib => ib.remark == plabel.getD "")) = false := by
          rw [hany, Bool.and_false]
        rw [if_neg (by simp [hcond]), ← find?_eq_head?_filter]
    · have hfalse : (plabel.getD "" != "") = false := by simpa using hreq
      have hcond : (plabel.getD "" != "" &&
          inbounds.any (fun ib => ib.remark == plabel.getD "")) = false := by
        rw [hfalse, Bool.false_and]
      rw [if_neg (by simp [hfalse]), if_neg (by simp [hcond]),
        ← find?_eq_head?_filter]

/-! ### C9 -/

/-- Whether `needle` begins `hay` (character lists). -/
def charsLead : List Char → List Char → Bool
  | [], _ => true
  | _ :: _, [] => false
  | a :: as, b :: bs => a == b && charsLead as bs

/-- Whether `needle` occurs contiguously inside `hay` (character lists). -/
def charsHave (needle : List Char) : List Char → Bool
  | [] => charsLead needle []
  | b :: bs => charsLead needle (b :: bs) || charsHave needle bs

/-- Substring test on strings. -/
def strHas (needle hay : String) : Bool := charsHave needle.data hay.data

/-- Suffix test on strings. -/
def strEndsIn (tail hay : String) : Bool :=
  charsLead tail.data.reverse hay.data.reverse

/-- Whether a truthy optional obfuscation entry is present in an
extracted reality dict. -/
def spxPresentReality (reality : JsonVal) : Bool :=
  match spxOfReality reality with
  | some v => v.truthy
  | none => false

/-- The reality configuration of the fixed endpoint of the descriptor
round-trip claim: public key "PK", server name "example.com", short id
"ab", fingerprint "chrome". -/
def realityFields : List (String × JsonVal) :=
  [("publicKey", .str "PK"),
   ("serverNames", .arr [.str "example.com"]),
   ("shortIds", .arr [.str "ab"]),
   ("fingerprint", .str "chrome")]

/-- The fixed endpoint of the descriptor round-trip claim: port 443,
transport "tcp", security "reality", reality config `realityFields`. -/
def realityEndpoint : Inbound :=
  { id := 1, remark := "main", port := 443, protocol := "vless",
    settings := .obj [],
    stream_settings := .obj
      [("network", .str "tcp"), ("security", .str "reality"),
       ("realitySettings", .obj realityFields)] }

/-- An endpoint whose panel JSON carries a truthy non-dict
`realitySettings` — `_parse_inbound` passes such values through
unchecked, and on them `build_vless_reality_uri` raises
`AttributeError` at `reality.get("publicKey")`. -/
def crashEndpoint : Inbound :=
  { id := 2, remark := "bad", port := 443, protocol := "vless",
    settings := .obj [],
    stream_settings := .obj [("realitySettings", .str "bogus")] }

/-- The URI the builder produces for the fixed endpoint, public host
"vpn.example.com", secret "11111111-1111-1111-1111-111111111111" and
label "u1". -/
def realityUri : String :=
  buildVlessRealityUri realityEndpoint "vpn.example.com"
    "11111111-1111-1111-1111-111111111111" "u1"

/-- C9 counterexample: the for-every-input half of the claim fails — on
an endpoint whose `realitySettings` is a truthy non-dict, the builder
raises `AttributeError` instead of producing a URI, so there is no URI
in which the query parameters could be present at all. -/
theorem buildDescriptor_crash_counterexample :
    vlessQuery crashEndpoint = .error .AttributeErr ∧
    buildVlessRealityUriChecked crashEndpoint "vpn.example.com"
      "11111111-1111-1111-1111-111111111111" "u1" = .error .AttributeErr :=
  ⟨rfl, rfl⟩

/-- Keys of the success-path query: the eight claimed parameters in
order, with `spx` appended exactly when a truthy obfuscation entry is
present. -/
theorem queryOfReality_keys (r : JsonVal) :
    (queryOfReality r).map Prod.fst =
      ["type", "security", "encryption", "flow", "fp", "sni", "pbk", "sid"] ++
        (if spxPresentReality r then ["spx"] else []) := by
  by_cases hb : spxPresentReality r = true
  · simp only [hb, if_true]
    unfold spxPresentReality at hb
    unfold queryOfReality
    revert hb
    generalize spxOfReality r = o
    intro hb
    cases o with
    | some v => simp at hb; simp [hb]
    | none => simp at hb
  · have hb' : spxPresentReality r = false := by simpa using hb
    simp only [hb', Bool.false_eq_true, if_false]
    unfold spxPresentReality at hb'
    unfold queryOfReality
    revert hb'
    generalize spxOfReality r = o
    intro hb'
    cases o with
    | some v => simp at hb'; simp [hb']
    | none => simp

/-- C9 amended: the fixed-endpoint URI contains `@vpn.example.com:443`,
`pbk=PK`, `sni=example.com`, `sid=ab`, `fp=chrome`, ends in fragment
`u1`, and is exactly what the checked builder returns; for every
endpoint whose extracted reality value is a dict the builder succeeds
and its query carries exactly the keys `type`, `security`,
`encryption`, `flow`, `fp`, `sni`, `pbk`, `sid` in order (values
possibly empty), with `spx` appended exactly when present and omitted
entirely when absent; for every endpoint whose extracted reality value
is a truthy non-dict the builder fails with `AttributeError` and
produces no URI. -/
theorem buildDescriptor_fields_on_dict :
    strHas "@vpn.example.com:443" realityUri = true ∧
    strHas "pbk=PK" realityUri = true ∧
    strHas "sni=example.com" realityUri = true ∧
    strHas "sid=ab" realityUri = true ∧
    strHas "fp=chrome" realityUri = true ∧
    strEndsIn "#u1" realityUri = true ∧
    buildVlessRealityUriChecked realityEndpoint "vpn.example.com"
      "11111111-1111-1111-1111-111111111111" "u1" = .ok realityUri ∧
    (∀ (ib : Inbound) (host uuid label : String) (q : List (String × String)),
      vlessQuery ib = .ok q →
      buildVlessRealityUriChecked ib host uuid label =
        .ok ("vless://" ++ uuid ++ "@" ++ host ++ ":" ++ toString ib.port ++ "?"
          ++ urlencodeQuote q ++ "#" ++ pyQuote label)) ∧
    (∀ (ib : Inbound) (f : List (String × JsonVal)), realityOf ib = .obj f →
      vlessQuery ib = .ok (queryOfReality (.obj f)) ∧
      (queryOfReality (.obj f)).map Prod.fst =
        ["type", "security", "encryption", "flow", "fp", "sni", "pbk", "sid"] ++
          (if spxPresentReality (.obj f) then ["spx"] else [])) ∧
    (∀ (ib : Inbound) (host uuid label : String), realityIsDict ib = false →
      vlessQuery ib = .error .AttributeErr ∧
      buildVlessRealityUriChecked ib host uuid label = .error .AttributeErr) := by
  refine ⟨by decide, by decide, by decide, by decide, by decide, by decide, rfl,
    ?_, ?_, ?_⟩
  · intro ib host uuid label q hq
    unfold buildVlessRealityUriChecked
    rw [hq]
  · intro ib f hf
    constructor
    · unfold vlessQuery
      rw [hf]
    · exact queryOfReality_keys (.obj f)
  · intro ib host uuid label hnd
    have hq : vlessQuery ib = .error .AttributeErr := by
      unfold realityIsDict at hnd
      unfold vlessQuery
      revert hnd
      generalize realityOf ib = r
      intro hnd
      cases r with
      | obj f => simp at hnd
      | null => rfl
      | bool b => rfl
      | num n => rfl
      | str t => rfl
      | arr l => rfl
    refine ⟨hq, ?_⟩
    unfold buildVlessRealityUriChecked
    rw [hq]

/-- Witness for `buildDescriptor_fields_on_dict`: the dict case at the
fixed endpoint and the crash case at the malformed endpoint. -/
theorem buildDescriptor_fields_on_dict_witness :
    (vlessQuery realityEndpoint = .ok (queryOfReality (.obj realityFields)) ∧
      (queryOfReality (.obj realityFields)).map Prod.fst =
        ["type", "security", "encryption", "flow", "fp", "sni", "pbk", "sid"] ++
          (if spxPresentReality (.obj realityFields) then ["spx"] else [])) ∧
    (vlessQuery crashEndpoint = .error .AttributeErr ∧
      buildVlessRealityUriChecked crashEndpoint "h" "u" "l" =
        .error .AttributeErr) :=
  ⟨buildDescriptor_fields_on_dict.2.2.2.2.2.2.2.2.1 realityEndpoint
      realityFields rfl,
    buildDescriptor_fields_on_dict.2.2.2.2.2.2.2.2.2 crashEndpoint
      "h" "u" "l" rfl⟩

/-! ### C1 -/

/-- A panel with a single resolvable vless endpoint. -/
def inboundOne : Inbound :=
  { id := 1, remark := "main", port := 443, protocol := "vless",
    settings := .obj [], stream_settings := .obj [] }

/-- Environment selecting `inboundOne` by id, panel calls succeeding. -/
def envOnePanel : Env :=
  { inbounds := [inboundOne], cfgInboundId := some 1, cfgInboundRemark := none,
    vpnPublicHost := "h", subscriptionDays := 30, addClientFails := false }

/-- A succeeded payment of identity 7. -/
def paymentRace : Payment :=
  { id := "pr", tg_id := 7, provider := "payment_mock", amount := 199,
    currency := "RUB", status := "succeeded", idempotency_key := "kr",
    created_at := 10, updated_at := 20, payload := "{}" }

/-- The subscription a concurrent call committed for `paymentRace` after
this call's existence check. -/
def subWinner : Subscription :=
  { id := "sw", tg_id := 7, payment_id := "pr", inbound_id := 1,
    client_uuid := "uw", client_email := "ew", vless_uri := "vw",
    status := "active", created_at := 20, starts_at := 20,
    expires_at := 2592020, revoked_at := none }

/-- State at the moment of this call's subscription INSERT: the winner's
row is already committed. -/
def dbRace : DB := ⟨[7], [paymentRace], [subWinner]⟩

/-- C1 counterexample: when a subscription for the payment already exists
at INSERT time (committed between the existence check and the insert),
the provisioning tail of `pay_confirm` does NOT catch the `Conflict` and
return the existing subscription — the error propagates to the caller. -/
theorem payConfirm_conflict_counterexample :
    payConfirmProvision envOnePanel dbRace 7 paymentRace "ul" "sl" 30 =
      (dbRace, .error .Conflict) ∧
    (payConfirmProvision envOnePanel dbRace 7 paymentRace "ul" "sl" 30).2 ≠
      .ok (.alreadyProcessed subWinner) := by
  have h1 : payConfirmProvision envOnePanel dbRace 7 paymentRace "ul" "sl" 30 =
      (dbRace, .error .Conflict) := rfl
  refine ⟨h1, ?_⟩
  rw [h1]
  intro h
  exact Except.noConfusion h

/-- C1 amended: `pay_confirm` has no Conflict backstop around
`create_subscription` — whenever a subscription for the payment already
exists at INSERT time the `IntegrityError` propagates uncaught (first
conjunct); the only idempotency protection is the existence check
*before* the insert, which replays an already-committed subscription
(second conjunct). -/
theorem payConfirm_conflict_propagates :
    ∀ (env : Env) (db : DB) (tg : Int) (uuid sid : String) (now : Int)
      (ib : Inbound) (payment : Payment) (pid : String) (s : Subscription),
      (resolveInbound env.inbounds env.cfgInboundId env.cfgInboundRemark = .ok ib →
        env.addClientFails = false →
        (∃ t ∈ db.subscriptions, t.payment_id = payment.id) →
        payConfirmProvision env db tg payment uuid sid now = (db, .error .Conflict)) ∧
      (getPayment db pid = .ok payment →
        payment.tg_id = tg →
        payment.status = "succeeded" →
        getSubscriptionByPayment db payment.id = some s →
        payConfirm env db tg pid uuid sid now =
          (ensureUser db tg, .ok (.alreadyProcessed s))) := by
  intro env db tg uuid sid now ib payment pid s
  constructor
  · intro hres hadd hex
    obtain ⟨t, ht, hpid⟩ := hex
    have hany : (db.subscriptions.any
        (fun r => r.id == sid || r.payment_id == payment.id)) = true :=
      List.any_eq_true.mpr ⟨t, ht, by simp [hpid]⟩
    unfold payConfirmProvision
    rw [hres, hadd]
    simp [createSubscription, hany]
  · intro hgp howner hstat hsub
    have hpay := ensureUser_payments db tg
    have hsubs := ensureUser_subscriptions db tg
    have hgp' : getPayment (ensureUser db tg) pid = .ok payment := by
      rw [getPayment_congr hpay, hgp]
    have hbe : (payment.tg_id != tg) = false := by simp [howner]
    have hse : (payment.status == "succeeded") = true := by simp [hstat]
    have hne : (payment.status != "succeeded") = false := by simp [hstat]
    have hsub' : getSubscriptionByPayment (ensureUser db tg) payment.id = some s := by
      rw [getSubscriptionByPayment_congr hsubs, hsub]
    unfold payConfirm confirmPayment
    dsimp only
    rw [hgp']
    simp [hbe, hse, hne, hsub']

/-- Witness for `payConfirm_conflict_propagates` on the race fixture. -/
theorem payConfirm_conflict_propagates_witness :
    payConfirmProvision envOnePanel dbRace 7 paymentRace "ul" "sl2" 30 =
      (dbRace, .error .Conflict) ∧
    payConfirm envOnePanel dbRace 7 "pr" "ul" "sl2" 30 =
      (ensureUser dbRace 7, .ok (.alreadyProcessed subWinner)) := by
  have h := payConfirm_conflict_propagates envOnePanel dbRace 7 "ul" "sl2" 30
    inboundOne paymentRace "pr" subWinner
  exact ⟨h.1 rfl rfl ⟨subWinner, by decide, rfl⟩, h.2 rfl rfl rfl rfl⟩

/-! ### C2 -/

/-- The state after the sequential trace: `buy` for identity 7 at t=100
(pending payment "p1"), privileged `/start` grant at t=110 (subscription
"s1", valid to 2100), then `pay_confirm` of "p1" at t=120 (subscription
"s2"). -/
def dbAfterTrace : DB :=
  (payConfirm envOnePanel
    (startHandler envOnePanel [7]
      (buyHandler ⟨[], [], []⟩ 7 199 "p1" "k1" 100).1
      7 "p2" "uA" "s1" 110).1
    7 "p1" "uB" "s2" 120).1

/-- C2 counterexample: after the interleaving-free sequence
buy → privileged grant → pay_confirm, identity 7 holds TWO subscriptions
with `status = "active"` and `expires_at > 120` — `pay_confirm` never
re-checks for an existing active subscription. -/
theorem two_active_subscriptions_counterexample :
    (dbAfterTrace.subscriptions.filter (fun s =>
      s.tg_id == 7 && s.status == "active" && decide ((120 : Int) < s.expires_at))).length
      = 2 := by
  decide

/-- C2 amended: the `buy` entry point and the privileged grant are
guarded — with an active subscription in place they create no payment
and no subscription — but `pay_confirm` has no such guard (see the
counterexample): a payment kept pending across another provisioning
produces a second concurrently-active subscription when confirmed. -/
theorem guarded_entry_points_refuse_when_active :
    ∀ (env : Env) (adminIds : List Int) (db : DB) (tg price : Int)
      (pid idk gpid uuid sid : String) (now : Int) (s : Subscription),
      getActiveSubscription db tg none now = some s →
      buyHandler db tg price pid idk now =
        (ensureUser db tg, .ok (.alreadyActive s)) ∧
      ensureAdminSubscription env adminIds db tg gpid uuid sid now = (db, .ok ()) ∧
      startHandler env adminIds db tg gpid uuid sid now = (ensureUser db tg, .ok ()) := by
  intro env adminIds db tg price pid idk gpid uuid sid now s hact
  have hsubs := ensureUser_subscriptions db tg
  have hact' : getActiveSubscription (ensureUser db tg) tg none now = some s := by
    rw [getActiveSubscription_congr hsubs, hact]
  have hadmin : ∀ d : DB, getActiveSubscription d tg none now = some s →
      ensureAdminSubscription env adminIds d tg gpid uuid sid now = (d, .ok ()) := by
    intro d hd
    unfold ensureAdminSubscription
    by_cases hc : adminIds.contains tg = true
    · rw [hc, hd]; rfl
    · have : adminIds.contains tg = false := by simpa using hc
      rw [this]; rfl
  refine ⟨?_, hadmin db hact, ?_⟩
  · unfold buyHandler
    dsimp only
    rw [hact']
  · unfold startHandler
    exact hadmin (ensureUser db tg) hact'

/-- Fixture: identity 7 already holds a live subscription. -/
def subLive : Subscription :=
  { id := "sl", tg_id := 7, payment_id := "pl", inbound_id := 1,
    client_uuid := "u", client_email := "e", vless_uri := "v",
    status := "active", created_at := 5, starts_at := 5, expires_at := 1000,
    revoked_at := none }

/-- Fixture database where identity 7 is actively subscribed. -/
def dbActive : DB := ⟨[7], [], [subLive]⟩

/-- Witness for `guarded_entry_points_refuse_when_active`. -/
theorem guarded_entry_points_refuse_when_active_witness :
    buyHandler dbActive 7 199 "px" "kx" 100 =
      (ensureUser dbActive 7, .ok (.alreadyActive subLive)) ∧
    ensureAdminSubscription envOnePanel [7] dbActive 7 "pg" "ug" "sg" 100 =
      (dbActive, .ok ()) ∧
    startHandler envOnePanel [7] dbActive 7 "pg" "ug" "sg" 100 =
      (ensureUser dbActive 7, .ok ()) :=
  guarded_entry_points_refuse_when_active envOnePanel [7] dbActive 7 199
    "px" "kx" "pg" "ug" "sg" 100 subLive rfl

/-! ### C3 -/

/-- C3: for an identity off the allow-list the grant is a no-op; for an
allow-listed identity with no active subscription (and no prior grant
payment), one call commits exactly one new subscription expiring at
`ADMIN_EXPIRES_AT`, backed by exactly one zero-amount `admin_grant`
payment, and an immediately repeated call is a no-op — no new payment,
no new subscription. The grant-payment helper is modelled from the spec
(see `createOrGetAdminGrantPayment`). -/
theorem grant_privileged_once :
    ∀ (env : Env) (adminIds : List Int) (db : DB) (tg : Int)
      (gpid uuid sid gpid2 uuid2 sid2 : String) (now now' : Int) (ib : Inbound),
      (adminIds.contains tg = false →
        ensureAdminSubscription env adminIds db tg gpid uuid sid now = (db, .ok ())) ∧
      (adminIds.contains tg = true →
        getActiveSubscription db tg none now = none →
        resolveInbound env.inbounds env.cfgInboundId env.cfgInboundRemark = .ok ib →
        env.addClientFails = false →
        db.payments.filter (fun q => q.provider == "admin_grant" && q.tg_id == tg) = [] →
        (∀ s ∈ db.subscriptions, s.payment_id ≠ gpid ∧ s.id ≠ sid) →
        now' < ADMIN_EXPIRES_AT →
        ∃ (sub : Subscription) (p : Payment),
          ensureAdminSubscription env adminIds db tg gpid uuid sid now =
            (⟨db.users, db.payments ++ [p], db.subscriptions ++ [sub]⟩, .ok ()) ∧
          sub.tg_id = tg ∧ sub.status = "active" ∧
          sub.expires_at = ADMIN_EXPIRES_AT ∧ sub.payment_id = p.id ∧
          p.amount = 0 ∧ p.provider = "admin_grant" ∧ p.tg_id = tg ∧
          ((db.payments ++ [p]).filter
            (fun q => q.provider == "admin_grant" && q.tg_id == tg)).length = 1 ∧
          ensureAdminSubscription env adminIds
            ⟨db.users, db.payments ++ [p], db.subscriptions ++ [sub]⟩
            tg gpid2 uuid2 sid2 now' =
            (⟨db.users, db.payments ++ [p], db.subscriptions ++ [sub]⟩, .ok ())) := by
  intro env adminIds db tg gpid uuid sid gpid2 uuid2 sid2 now now' ib
  constructor
  · intro hno
    unfold ensureAdminSubscription
    rw [hno]
    rfl
  · intro hadm hga hres hadd hfilter hfresh hnow'
    have hfind : db.payments.find?
        (fun q => q.provider == "admin_grant" && q.tg_id == tg) = none := by
      rw [find?_eq_head?_filter, hfilter]
      rfl
    set p : Payment :=
      { id := gpid, tg_id := tg, provider := "admin_grant", amount := 0,
        currency := "RUB", status := "succeeded",
        idempotency_key := "admin_grant:" ++ toString tg, created_at := now,
        updated_at := now, payload := "{}" } with hp
    set clientEmail := "admin" ++ toString tg ++ "-" ++ uuid.take 8 with hce
    set sub : Subscription :=
      { id := sid, tg_id := tg, payment_id := gpid, inbound_id := ib.id,
        client_uuid := uuid, client_email := clientEmail,
        vless_uri := buildVlessRealityUri ib env.vpnPublicHost uuid clientEmail,
        status := "active", created_at := now, starts_at := now,
        expires_at := ADMIN_EXPIRES_AT, revoked_at := none } with hsubdef
    have hany : (db.subscriptions.any
        (fun s => s.id == sid || s.payment_id == gpid)) = false := by
      rw [← Bool.not_eq_true]
      intro h
      rcases List.any_eq_true.mp h with ⟨x, hx, hpx⟩
      rcases hfresh x hx with ⟨h1, h2⟩
      rcases Bool.or_eq_true_iff.mp hpx with h3 | h3
      · exact h2 (by simpa using h3)
      · exact h1 (by simpa using h3)
    have hstep : ensureAdminSubscription env adminIds db tg gpid uuid sid now =
        (⟨db.users, db.payments ++ [p], db.subscriptions ++ [sub]⟩, .ok ()) := by
      unfold ensureAdminSubscription createOrGetAdminGrantPayment
      rw [hadm, hga, hfind, hres, hadd]
      unfold createSubscription
      dsimp only
      rw [hany]
      rfl
    refine ⟨sub, p, hstep, rfl, rfl, rfl, rfl, rfl, rfl, rfl, ?_, ?_⟩
    · rw [List.filter_append, hfilter]
      simp
    · have hmemsub : sub ∈ (db.subscriptions ++ [sub]) := by
        simp
      have hfilter2 : sub ∈ (db.subscriptions ++ [sub]).filter
          (fun s => s.tg_id == tg && s.status == "active" &&
            decide (effectiveCutoff none now' < s.expires_at)) := by
        rw [List.mem_filter]
        refine ⟨hmemsub, ?_⟩
        simp [effectiveCutoff, hnow']
      have hne : ((db.subscriptions ++ [sub]).filter
          (fun s => s.tg_id == tg && s.status == "active" &&
            decide (effectiveCutoff none now' < s.expires_at))) ≠ [] := by
        intro h
        rw [h] at hfilter2
        exact List.not_mem_nil sub hfilter2
      unfold ensureAdminSubscription
      rw [hadm]
      cases hga2 : getActiveSubscription
          ⟨db.users, db.payments ++ [p], db.subscriptions ++ [sub]⟩ tg none now' with
      | some t => rfl
      | none =>
        exfalso
        apply hne
        exact (latestCreatedSubscription_eq_none_iff _).mp hga2

/-- Witness for `grant_privileged_once`: fresh allow-listed identity 7. -/
theorem grant_privileged_once_witness :
    ∃ (sub : Subscription) (p : Payment),
      ensureAdminSubscription envOnePanel [7] ⟨[7], [], []⟩ 7 "pg" "ug" "sg" 100 =
        (⟨[7], [p], [sub]⟩, .ok ()) ∧
      sub.tg_id = 7 ∧ sub.status = "active" ∧
      sub.expires_at = ADMIN_EXPIRES_AT ∧ sub.payment_id = p.id ∧
      p.amount = 0 ∧ p.provider = "admin_grant" ∧ p.tg_id = 7 ∧
      (([p] : List Payment).filter
        (fun q => q.provider == "admin_grant" && q.tg_id == (7 : Int))).length = 1 ∧
      ensureAdminSubscription envOnePanel [7] ⟨[7], [p], [sub]⟩ 7 "pg2" "ug2" "sg2" 110 =
        (⟨[7], [p], [sub]⟩, .ok ()) := by
  exact (grant_privileged_once envOnePanel [7] ⟨[7], [], []⟩ 7 "pg" "ug" "sg"
    "pg2" "ug2" "sg2" 100 110 inboundOne).2 rfl rfl rfl rfl rfl
    (by simp) (by decide)
